import Mathlib

/-!
Verification of the dual-transport progress-delivery subsystem of the
gemini-question-solver frontend.

The embedding translates:
  - the progress envelope fields read by the channel managers
    (the `type`, `status` and `error` fields of the JSON payload);
  - the push channel manager, `useWebSocket.js` (the `ws.onmessage`
    handler and the `stop` function);
  - the pull channel manager, `useProgress.js` (the `poll` loop with its
    800 / 2000 time-unit scheduling and the `stop` function);
  - the reconciler, `startSolving` in the application root component
    (try push, on synchronous throw fall back to polling; the
    `ws.onerror` handler is empty and starts no fallback);
  - the `ProgressSection` percentage computation.

Consumer-visible behaviour is modelled as the list of callback
invocations (`onTick`, `onComplete`, `onError`) a run produces, in order.
-/

namespace GeminiSolver

/-- A progress envelope as read by the channel managers: the JSON fields
`type` (also carrying the keepalive discriminator `pong`), the legacy
`status` field, the optional `error` text, and the numeric payload. -/
structure Envelope where
  type : Option String
  status : Option String
  error : Option String
  progress : Nat
  total : Nat
  deriving DecidableEq

/-- The JS expression `data.error || defaultText`: the error field when
present and non-empty (truthy), otherwise the fallback text. -/
def errMsg (e : Envelope) : String :=
  match e.error with
  | some s => if s = "" then "Processing error" else s
  | none => "Processing error"

/-- One consumer callback invocation. -/
inductive Callback where
  | tick (e : Envelope)
  | complete (e : Envelope)
  | error (msg : String)
  deriving DecidableEq

/-- Is this invocation a terminal callback (`onComplete` or `onError`)? -/
def isTerminalCb : Callback → Bool
  | .complete _ => true
  | .error _ => true
  | .tick _ => false

/-- Is this invocation an `onTick`? -/
def isTickCb : Callback → Bool
  | .tick _ => true
  | _ => false

/-- The envelope carries the keepalive discriminator (`data.type === 'pong'`). -/
abbrev isPong (e : Envelope) : Prop := e.type = some "pong"

/-- Push-channel completion test: `data.type === 'completed' || data.status === 'completed'`. -/
abbrev pushCompleted (e : Envelope) : Prop :=
  e.type = some "completed" ∨ e.status = some "completed"

/-- Push-channel error test: `data.type === 'error' || data.status === 'error'`. -/
abbrev pushError (e : Envelope) : Prop :=
  e.type = some "error" ∨ e.status = some "error"

/-- Pull-channel completion test: `data.status === 'completed'`. -/
abbrev pullCompleted (e : Envelope) : Prop := e.status = some "completed"

/-- Pull-channel error test: `data.status === 'error'`. -/
abbrev pullError (e : Envelope) : Prop := e.status = some "error"

/-- An envelope the push handler forwards without stopping. -/
abbrev pushNonTerminal (e : Envelope) : Prop :=
  ¬ isPong e ∧ ¬ pushCompleted e ∧ ¬ pushError e

/-- An envelope the pull loop treats as non-terminal. -/
abbrev pullNonTerminal (e : Envelope) : Prop :=
  ¬ pullCompleted e ∧ ¬ pullError e

/-! ## Push channel manager (`useWebSocket.js`) -/

/-- One inbound WebSocket frame: either it parses to an envelope or
`JSON.parse` throws. -/
inductive Frame where
  | malformed
  | parsed (e : Envelope)
  deriving DecidableEq

/-- The `ws.onmessage` handler: the callbacks it invokes for one frame and
whether it calls `stop()` (closing the connection). A parse failure is
caught and ignored; `pong` frames return early; a completed discriminator
in either field invokes `onTick` then `onComplete` then `stop`; an error
discriminator invokes `onError` then `stop`; anything else is forwarded
via `onTick`. -/
def pushHandle : Frame → List Callback × Bool
  | .malformed => ([], false)
  | .parsed d =>
    if isPong d then ([], false)
    else if pushCompleted d then ([.tick d, .complete d], true)
    else if pushError d then ([.error (errMsg d)], true)
    else ([.tick d], false)

/-- Run the push manager over a sequence of inbound frames. Once the
handler has called `stop()`, the socket readyState leaves OPEN and the
WebSocket event model fires no further message events, so the remaining
frames are never delivered. -/
def runPush : List Frame → List Callback
  | [] => []
  | f :: fs =>
    (pushHandle f).1 ++ (if (pushHandle f).2 = true then [] else runPush fs)

/-- The two refs owned by `useWebSocket`: `pingRef` (keepalive interval
present) and `wsRef` (connection object present). -/
structure PushRefs where
  ping : Bool
  ws : Bool
  deriving DecidableEq

/-- The push `stop()` function: clears the keepalive interval if present
and closes plus nulls the connection if present. Returns the new refs,
whether an interval was cancelled, and whether a close was issued. -/
def stopPush (r : PushRefs) : PushRefs × Bool × Bool :=
  ({ ping := false, ws := false }, r.ping, r.ws)

/-! ## Pull channel manager (`useProgress.js`) -/

/-- Resolution of one `api.getProgress` call: a parsed envelope, or a
rejection (network failure, timeout, unparseable response). -/
inductive QueryResult where
  | ok (e : Envelope)
  | failed
  deriving DecidableEq

/-- Events dispatched to the pull manager on the event loop: an in-flight
query resolves, a scheduled timeout fires (running `poll` again), or the
consumer calls `stop()`. -/
inductive PullEv where
  | resolve (r : QueryResult)
  | timerFire
  | stopCall
  deriving DecidableEq

/-- Pull manager state: the number of `getProgress` calls currently
awaiting resolution, and the pending `setTimeout` delay held in
`timerRef` (none when no timeout is scheduled). -/
structure PullState where
  inFlight : Nat
  timer : Option Nat
  deriving DecidableEq

/-- The body of `poll` after a successful response: `onTick(data)` always
fires first; `status === 'completed'` then invokes `onComplete` with no
reschedule, `status === 'error'` invokes `onError` with no reschedule,
and any other envelope schedules the next poll after 800. Returns the
callbacks and the scheduled delay. -/
def pullHandle (e : Envelope) : List Callback × Option Nat :=
  if pullCompleted e then ([.tick e, .complete e], none)
  else if pullError e then ([.tick e, .error (errMsg e)], none)
  else ([.tick e], some 800)

/-- One event-loop step of the pull manager. `stop()` only clears the
pending timeout: it cannot cancel a query already in flight, whose
resolution still runs the rest of `poll`. A failed query schedules the
next attempt after 2000 and invokes no callback. A timer firing runs
`poll`, issuing one new query. -/
def pullStep (s : PullState) : PullEv → PullState × List Callback
  | .stopCall => ({ inFlight := s.inFlight, timer := none }, [])
  | .timerFire =>
    match s.timer with
    | some _ => ({ inFlight := s.inFlight + 1, timer := none }, [])
    | none => (s, [])
  | .resolve r =>
    if s.inFlight = 0 then (s, [])
    else
      match r with
      | .failed => ({ inFlight := s.inFlight - 1, timer := some 2000 }, [])
      | .ok e => ({ inFlight := s.inFlight - 1, timer := (pullHandle e).2 }, (pullHandle e).1)

/-- Run the pull manager over a list of event-loop events, returning the
final state and the callbacks invoked, in order. -/
def pullRunS (s : PullState) : List PullEv → PullState × List Callback
  | [] => (s, [])
  | ev :: evs =>
    ((pullRunS (pullStep s ev).1 evs).1,
      (pullStep s ev).2 ++ (pullRunS (pullStep s ev).1 evs).2)

/-- The callbacks a run of the pull manager invokes. -/
def pullRun (s : PullState) (evs : List PullEv) : List Callback :=
  (pullRunS s evs).2

/-- The state right after `start(sessionId, onTick)`: `stop()` cleared any
pending timeout and `poll()` issued the first query immediately. -/
def pullStart : PullState := { inFlight := 1, timer := none }

/-- The pull `stop()` function on `timerRef`: `clearTimeout` if a timeout
is pending, then null the ref. Returns the new ref and whether a
cancellation was issued. -/
def stopPull (timerRef : Option Nat) : Option Nat × Bool :=
  (none, timerRef.isSome)

/-- Resource-occupancy count of the pull manager: in-flight queries plus
pending timeouts. The loop is strictly sequential iff this never
exceeds one. -/
def slots (s : PullState) : Nat :=
  s.inFlight + (if s.timer.isSome = true then 1 else 0)

/-! ## Reconciler (`startSolving` in the application root) -/

/-- How push-transport activation turns out: the `WebSocket` constructor
throws synchronously, or the socket object is created but the connection
fails before any envelope arrives (the error event fires), or the
connection opens and delivers frames. -/
inductive PushOutcome where
  | syncThrow
  | asyncFail
  | opens (frames : List Frame)
  deriving DecidableEq

/-- `startSolving`: `try { ws.start(...) } catch { startPolling(...) }`.
Only a synchronous throw of `ws.start` reaches the catch and starts
polling. When the socket is created but errors asynchronously, the empty
`ws.onerror` handler runs, no fallback starts, and no callback is ever
invoked. When the socket opens, the push manager delivers the frames. -/
def startSolving (o : PushOutcome) (pullEvs : List PullEv) : List Callback :=
  match o with
  | .syncThrow => pullRun pullStart pullEvs
  | .asyncFail => []
  | .opens fs => runPush fs

/-! ## Progress view (`ProgressSection`) -/

/-- The `ProgressSection` percentage:
`data.total > 0 ? (data.progress / data.total) * 100 : 0`. A missing
`total` compares as not greater than zero in JS, taking the zero
branch. -/
def percentOf (progress : ℚ) (total : Option ℚ) : ℚ :=
  match total with
  | some t => if 0 < t then progress / t * 100 else 0
  | none => 0

/-! ## Concrete envelopes used by witnesses and counterexamples -/

/-- A non-terminal progress envelope. -/
def progressEnv : Envelope :=
  { type := some "progress", status := none, error := none, progress := 1, total := 3 }

/-- A terminal completion envelope discriminated by the legacy `status` field. -/
def completedEnv : Envelope :=
  { type := none, status := some "completed", error := none, progress := 3, total := 3 }

/-- A terminal completion envelope discriminated only by the `type` field. -/
def kindCompletedEnv : Envelope :=
  { type := some "completed", status := none, error := none, progress := 3, total := 3 }

/-- A terminal error envelope discriminated by the `type` field. -/
def errEnvPush : Envelope :=
  { type := some "error", status := none, error := some "rate limited", progress := 0, total := 3 }

/-- A terminal error envelope discriminated by the `status` field. -/
def errEnvPull : Envelope :=
  { type := none, status := some "error", error := some "rate limited", progress := 0, total := 3 }

/-- A keepalive acknowledgement frame. -/
def pongEnv : Envelope :=
  { type := some "pong", status := none, error := none, progress := 0, total := 0 }

/-! ## Helper lemmas -/

lemma pushHandle_pong (e : Envelope) (h : isPong e) :
    pushHandle (Frame.parsed e) = ([], false) := by
  simp [pushHandle, h]

lemma pushHandle_completed (e : Envelope) (hp : ¬ isPong e) (hc : pushCompleted e) :
    pushHandle (Frame.parsed e) = ([Callback.tick e, Callback.complete e], true) := by
  simp [pushHandle, hp, hc]

lemma pushHandle_error (e : Envelope) (hp : ¬ isPong e) (hc : ¬ pushCompleted e)
    (he : pushError e) :
    pushHandle (Frame.parsed e) = ([Callback.error (errMsg e)], true) := by
  simp only [pushHandle, if_neg hp, if_neg hc, if_pos he]

lemma pushHandle_nonterminal (e : Envelope) (h : pushNonTerminal e) :
    pushHandle (Frame.parsed e) = ([Callback.tick e], false) := by
  simp only [pushHandle, if_neg h.1, if_neg h.2.1, if_neg h.2.2]

lemma runPush_cons_nonterminal (e : Envelope) (fs : List Frame) (h : pushNonTerminal e) :
    runPush (Frame.parsed e :: fs) = Callback.tick e :: runPush fs := by
  simp [runPush, pushHandle_nonterminal e h]

lemma runPush_cons_stop (f : Frame) (fs : List Frame) (h : (pushHandle f).2 = true) :
    runPush (f :: fs) = (pushHandle f).1 := by
  simp [runPush, h]

lemma runPush_deliver (ne : List Envelope) (t : Envelope) (extra : List Frame)
    (h1 : ∀ e ∈ ne, pushNonTerminal e) (hp : ¬ isPong t)
    (ht : pushCompleted t ∨ pushError t) :
    runPush (ne.map Frame.parsed ++ Frame.parsed t :: extra)
      = ne.map Callback.tick ++ (pushHandle (Frame.parsed t)).1 := by
  induction ne with
  | nil =>
    have hstop : (pushHandle (Frame.parsed t)).2 = true := by
      by_cases hc : pushCompleted t
      · simp [pushHandle_completed t hp hc]
      · simp [pushHandle_error t hp hc (ht.resolve_left hc)]
    simpa using runPush_cons_stop (Frame.parsed t) extra hstop
  | cons e es ih =>
    have he : pushNonTerminal e := h1 e (List.mem_cons_self e es)
    have ihe := ih (fun x hx => h1 x (List.mem_cons_of_mem e hx))
    simp only [List.map_cons, List.cons_append,
      runPush_cons_nonterminal e _ he, ihe]

lemma pullHandle_completed (e : Envelope) (hc : pullCompleted e) :
    pullHandle e = ([Callback.tick e, Callback.complete e], none) := by
  simp [pullHandle, hc]

lemma pullHandle_error (e : Envelope) (hc : ¬ pullCompleted e) (he : pullError e) :
    pullHandle e = ([Callback.tick e, Callback.error (errMsg e)], none) := by
  simp only [pullHandle, if_neg hc, if_pos he]

lemma pullHandle_nonterminal (e : Envelope) (h : pullNonTerminal e) :
    pullHandle e = ([Callback.tick e], some 800) := by
  simp only [pullHandle, if_neg h.1, if_neg h.2]

lemma pullStep_ok (s : PullState) (e : Envelope) (hs : s.inFlight = 1) :
    pullStep s (PullEv.resolve (QueryResult.ok e))
      = ({ inFlight := 0, timer := (pullHandle e).2 }, (pullHandle e).1) := by
  simp [pullStep, hs]

lemma pullStep_failed (s : PullState) (hs : s.inFlight = 1) :
    pullStep s (PullEv.resolve QueryResult.failed)
      = ({ inFlight := 0, timer := some 2000 }, []) := by
  simp [pullStep, hs]

lemma pullStep_fire (s : PullState) (d : Nat) (hs : s.timer = some d) :
    pullStep s PullEv.timerFire = ({ inFlight := s.inFlight + 1, timer := none }, []) := by
  simp [pullStep, hs]

lemma pullRunS_dead (evs : List PullEv) :
    pullRunS { inFlight := 0, timer := none } evs
      = ({ inFlight := 0, timer := none }, []) := by
  induction evs with
  | nil => rfl
  | cons ev evs ih =>
    have h : pullStep { inFlight := 0, timer := none } ev
        = ({ inFlight := 0, timer := none }, []) := by
      cases ev with
      | stopCall => rfl
      | timerFire => rfl
      | resolve r => rfl
    simp [pullRunS, h, ih]

/-- The event-loop trace in which the pull channel delivers each envelope
of `ne` in turn (response resolves, then the scheduled timer fires and
issues the next query) and finally the terminal envelope `t` resolves. -/
def pullDeliverTrace : List Envelope → Envelope → List PullEv
  | [], t => [PullEv.resolve (QueryResult.ok t)]
  | e :: es, t =>
    PullEv.resolve (QueryResult.ok e) :: PullEv.timerFire :: pullDeliverTrace es t

lemma pullHandle_terminal_timer (t : Envelope) (ht : pullCompleted t ∨ pullError t) :
    (pullHandle t).2 = none := by
  by_cases hc : pullCompleted t
  · simp [pullHandle_completed t hc]
  · simp [pullHandle_error t hc (ht.resolve_left hc)]

lemma pullRunS_deliver (ne : List Envelope) (t : Envelope) (extra : List PullEv)
    (h1 : ∀ e ∈ ne, pullNonTerminal e) (ht : pullCompleted t ∨ pullError t) :
    pullRunS { inFlight := 1, timer := none } (pullDeliverTrace ne t ++ extra)
      = ({ inFlight := 0, timer := none },
          ne.map Callback.tick ++ (pullHandle t).1) := by
  induction ne with
  | nil =>
    have hstep := pullStep_ok { inFlight := 1, timer := none } t rfl
    rw [pullHandle_terminal_timer t ht] at hstep
    simp [pullDeliverTrace, pullRunS, hstep, pullRunS_dead]
  | cons e es ih =>
    have he : pullNonTerminal e := h1 e (List.mem_cons_self e es)
    have hstep := pullStep_ok { inFlight := 1, timer := none } e rfl
    rw [pullHandle_nonterminal e he] at hstep
    have hfire := pullStep_fire { inFlight := 0, timer := some 800 } 800 rfl
    have ihe := ih (fun x hx => h1 x (List.mem_cons_of_mem e hx))
    simp [pullDeliverTrace, pullRunS, hstep, hfire, ihe]

lemma countP_tick_map (l : List Envelope) :
    (l.map Callback.tick).countP isTerminalCb = 0 := by
  induction l with
  | nil => rfl
  | cons e es ih => simp [List.countP_cons, isTerminalCb, ih]

lemma pullStep_slots (s : PullState) (ev : PullEv) (h : slots s ≤ 1) :
    slots (pullStep s ev).1 ≤ 1 := by
  cases ev with
  | stopCall =>
    cases htm : s.timer <;> simp [pullStep, slots, htm] at h ⊢ <;> omega
  | timerFire =>
    cases htm : s.timer with
    | none => simpa [pullStep, htm] using h
    | some d =>
      simp [pullStep, htm, slots] at h ⊢
      omega
  | resolve r =>
    by_cases h0 : s.inFlight = 0
    · simpa [pullStep, h0] using h
    · cases r with
      | failed =>
        cases htm : s.timer <;> simp [pullStep, h0, slots, htm] at h ⊢ <;> omega
      | ok e =>
        cases htm : s.timer <;>
          cases hph : (pullHandle e).2 <;>
            simp [pullStep, h0, slots, htm, hph] at h ⊢ <;> omega

lemma pullRunS_slots (evs : List PullEv) (s : PullState) (h : slots s ≤ 1) :
    slots (pullRunS s evs).1 ≤ 1 := by
  induction evs generalizing s with
  | nil => simpa [pullRunS] using h
  | cons ev evs ih => simpa [pullRunS] using ih (pullStep s ev).1 (pullStep_slots s ev h)

/-! ## Claims -/

/-- C1: the claim says calling `stop()` before any terminal envelope
guarantees zero further callback invocations, discarding work in flight.
The pull manager violates this: `stop()` only clears the pending timeout,
so a `getProgress` query in flight when `stop()` is called still runs the
rest of `poll` when it resolves — `onTick` fires with the stale data and
(the envelope being non-terminal) the loop even schedules the next poll
after 800. -/
theorem c1_stop_does_not_discard_inflight_work :
    pullRun pullStart [PullEv.stopCall, PullEv.resolve (QueryResult.ok progressEnv)]
      = [Callback.tick progressEnv]
  ∧ (pullRunS pullStart
      [PullEv.stopCall, PullEv.resolve (QueryResult.ok progressEnv)]).1
      = { inFlight := 0, timer := some 800 } := by
  constructor <;> rfl

/-- C2: for a sequence of non-terminal envelopes followed by one terminal
envelope on the active transport, `onTick` fires once per non-terminal
envelope in order, the terminal callback fires exactly once, after the
last `onTick`, and no callback of any kind fires afterwards even if the
transport continues to emit. Stated for both the push manager (over
frames `ne`, `t`, then arbitrary residue `extraP`) and the pull manager
(over the delivering event trace followed by arbitrary residue
`extraQ`). -/
theorem c2_ordered_delivery_single_terminal
    (ne pne : List Envelope) (t pt : Envelope)
    (extraP : List Frame) (extraQ : List PullEv)
    (h1 : ∀ e ∈ ne, pushNonTerminal e)
    (hp : ¬ isPong t) (ht : pushCompleted t ∨ pushError t)
    (h2 : ∀ e ∈ pne, pullNonTerminal e)
    (hq : pullCompleted pt ∨ pullError pt) :
    (runPush (ne.map Frame.parsed ++ Frame.parsed t :: extraP)
        = ne.map Callback.tick ++ (pushHandle (Frame.parsed t)).1
      ∧ (pushHandle (Frame.parsed t)).1.countP isTerminalCb = 1
      ∧ (∃ cb, ((pushHandle (Frame.parsed t)).1).getLast? = some cb
          ∧ isTerminalCb cb = true)
      ∧ (ne.map Callback.tick).countP isTerminalCb = 0)
  ∧ (pullRun pullStart (pullDeliverTrace pne pt ++ extraQ)
        = pne.map Callback.tick ++ (pullHandle pt).1
      ∧ (pullHandle pt).1.countP isTerminalCb = 1
      ∧ (∃ cb, ((pullHandle pt).1).getLast? = some cb ∧ isTerminalCb cb = true)
      ∧ (pne.map Callback.tick).countP isTerminalCb = 0) := by
  refine ⟨⟨runPush_deliver ne t extraP h1 hp ht, ?_, ?_, countP_tick_map ne⟩,
    ?_, ?_, ?_, countP_tick_map pne⟩
  · by_cases hc : pushCompleted t
    · simp [pushHandle_completed t hp hc, List.countP_cons, isTerminalCb]
    · simp [pushHandle_error t hp hc (ht.resolve_left hc), List.countP_cons, isTerminalCb]
  · by_cases hc : pushCompleted t
    · exact ⟨Callback.complete t, by simp [pushHandle_completed t hp hc], rfl⟩
    · exact ⟨Callback.error (errMsg t),
        by simp [pushHandle_error t hp hc (ht.resolve_left hc)], rfl⟩
  · simpa [pullRun, pullStart] using
      congrArg Prod.snd (pullRunS_deliver pne pt extraQ h2 hq)
  · by_cases hc : pullCompleted pt
    · simp [pullHandle_completed pt hc, List.countP_cons, isTerminalCb]
    · simp [pullHandle_error pt hc (hq.resolve_left hc), List.countP_cons, isTerminalCb]
  · by_cases hc : pullCompleted pt
    · exact ⟨Callback.complete pt, by simp [pullHandle_completed pt hc], rfl⟩
    · exact ⟨Callback.error (errMsg pt),
        by simp [pullHandle_error pt hc (hq.resolve_left hc)], rfl⟩

/-- C2 witness: two progress envelopes then a completion on the push
channel, and one progress envelope then an error on the pull channel. -/
theorem c2_ordered_delivery_single_terminal_witness :
    (runPush ([progressEnv, progressEnv].map Frame.parsed
        ++ Frame.parsed completedEnv :: [Frame.parsed progressEnv])
        = [progressEnv, progressEnv].map Callback.tick
          ++ (pushHandle (Frame.parsed completedEnv)).1
      ∧ (pushHandle (Frame.parsed completedEnv)).1.countP isTerminalCb = 1
      ∧ (∃ cb, ((pushHandle (Frame.parsed completedEnv)).1).getLast? = some cb
          ∧ isTerminalCb cb = true)
      ∧ ([progressEnv, progressEnv].map Callback.tick).countP isTerminalCb = 0)
  ∧ (pullRun pullStart (pullDeliverTrace [progressEnv] errEnvPull ++ [PullEv.timerFire])
        = [progressEnv].map Callback.tick ++ (pullHandle errEnvPull).1
      ∧ (pullHandle errEnvPull).1.countP isTerminalCb = 1
      ∧ (∃ cb, ((pullHandle errEnvPull).1).getLast? = some cb ∧ isTerminalCb cb = true)
      ∧ ([progressEnv].map Callback.tick).countP isTerminalCb = 0) :=
  c2_ordered_delivery_single_terminal [progressEnv, progressEnv] [progressEnv]
    completedEnv errEnvPull [Frame.parsed progressEnv] [PullEv.timerFire]
    (by decide) (by decide) (by decide) (by decide) (by decide)

/-- C3: the claim says every terminal envelope on either transport is
preceded by a synchronous `onTick` of its payload. Counterexample: an
error envelope on the push channel invokes `onError` directly — the run
contains no `onTick` at all. -/
theorem c3_no_tick_before_push_error :
    runPush [Frame.parsed errEnvPush] = [Callback.error "rate limited"]
  ∧ (runPush [Frame.parsed errEnvPush]).countP isTickCb = 0 := by
  constructor <;> rfl

/-- C3 amended: a completed envelope on the push channel and every
terminal envelope on the pull channel invoke `onTick` with the terminal
payload immediately before the terminal callback; an error envelope on
the push channel invokes `onError` with no preceding `onTick`. -/
theorem c3_final_tick_amended (ec ee ep eq : Envelope)
    (h1 : ¬ isPong ec) (h2 : pushCompleted ec)
    (h3 : ¬ isPong ee) (h4 : ¬ pushCompleted ee) (h5 : pushError ee)
    (h6 : pullCompleted ep)
    (h7 : ¬ pullCompleted eq) (h8 : pullError eq) :
    (pushHandle (Frame.parsed ec)).1 = [Callback.tick ec, Callback.complete ec]
  ∧ (pushHandle (Frame.parsed ee)).1 = [Callback.error (errMsg ee)]
  ∧ ((pushHandle (Frame.parsed ee)).1).countP isTickCb = 0
  ∧ (pullHandle ep).1 = [Callback.tick ep, Callback.complete ep]
  ∧ (pullHandle eq).1 = [Callback.tick eq, Callback.error (errMsg eq)] := by
  refine ⟨by simp [pushHandle_completed ec h1 h2], ?_, ?_, ?_, ?_⟩
  · simp [pushHandle_error ee h3 h4 h5]
  · simp [pushHandle_error ee h3 h4 h5, isTickCb]
  · simp [pullHandle_completed ep h6]
  · simp [pullHandle_error eq h7 h8]

/-- C3 amended witness at concrete completed, push-error, pull-completed
and pull-error envelopes. -/
theorem c3_final_tick_amended_witness :
    (pushHandle (Frame.parsed kindCompletedEnv)).1
      = [Callback.tick kindCompletedEnv, Callback.complete kindCompletedEnv]
  ∧ (pushHandle (Frame.parsed errEnvPush)).1 = [Callback.error (errMsg errEnvPush)]
  ∧ ((pushHandle (Frame.parsed errEnvPush)).1).countP isTickCb = 0
  ∧ (pullHandle completedEnv).1 = [Callback.tick completedEnv, Callback.complete completedEnv]
  ∧ (pullHandle errEnvPull).1 = [Callback.tick errEnvPull, Callback.error (errMsg errEnvPull)] :=
  c3_final_tick_amended kindCompletedEnv errEnvPush completedEnv errEnvPull
    (by decide) (by decide) (by decide) (by decide) (by decide) (by decide)
    (by decide) (by decide)

/-- C4: the claim says the consumer receives the identical pull-channel
stream whenever the push transport never successfully opens.
Counterexample: when the `WebSocket` object is created but the connection
fails before opening, the empty `ws.onerror` handler starts no fallback
and the consumer receives nothing, while the pull channel would have
delivered a tick and a completion for the same session. -/
theorem c4_async_failure_no_fallback :
    startSolving PushOutcome.asyncFail [PullEv.resolve (QueryResult.ok completedEnv)] = []
  ∧ pullRun pullStart [PullEv.resolve (QueryResult.ok completedEnv)]
      = [Callback.tick completedEnv, Callback.complete completedEnv] := by
  constructor <;> rfl

/-- C4 amended: only when push activation fails synchronously (the
constructor throws) does the reconciler fall back, and then the consumer
receives exactly the pull-channel callback sequence; when the socket is
created but fails asynchronously before any envelope arrives, no
fallback occurs and no callback is ever invoked. -/
theorem c4_fallback_amended (evs : List PullEv) :
    startSolving PushOutcome.syncThrow evs = pullRun pullStart evs
  ∧ startSolving PushOutcome.asyncFail evs = [] :=
  ⟨rfl, rfl⟩

/-- C5: the claim says both transports treat the legacy `status` field
and the `kind`/`type` field as equivalent discriminators.
Counterexample: the pull loop tests only `status`, so an envelope whose
only discriminator is `type = completed` is handled as non-terminal
(tick plus an 800 reschedule, no terminal callback), unlike the same
envelope discriminated by `status`. -/
theorem c5_pull_ignores_kind_field :
    pullHandle kindCompletedEnv = ([Callback.tick kindCompletedEnv], some 800)
  ∧ (pullHandle kindCompletedEnv).1.countP isTerminalCb = 0
  ∧ pullHandle completedEnv
      = ([Callback.tick completedEnv, Callback.complete completedEnv], none)
  ∧ pullHandle kindCompletedEnv ≠ pullHandle completedEnv := by
  refine ⟨rfl, rfl, rfl, ?_⟩
  decide

/-- C5 amended: the push channel treats `type` and `status` as equivalent
discriminators (either field triggers the identical terminal handling),
while the pull channel consults only `status`: an envelope with no
`status` field is handled as non-terminal whatever its `type`. -/
theorem c5_discriminator_amended (e f g : Envelope)
    (h1 : ¬ isPong e) (h2 : e.type = some "completed" ∨ e.status = some "completed")
    (h3 : ¬ isPong f) (h4 : ¬ pushCompleted f)
    (h5 : f.type = some "error" ∨ f.status = some "error")
    (h6 : g.status = none) :
    pushHandle (Frame.parsed e) = ([Callback.tick e, Callback.complete e], true)
  ∧ pushHandle (Frame.parsed f) = ([Callback.error (errMsg f)], true)
  ∧ pullHandle g = ([Callback.tick g], some 800) := by
  refine ⟨pushHandle_completed e h1 h2, pushHandle_error f h3 h4 h5, ?_⟩
  exact pullHandle_nonterminal g ⟨by simp [pullCompleted, h6], by simp [pullError, h6]⟩

/-- C5 amended witness: a completion discriminated by `type`, an error
discriminated by `status`, and a status-less envelope on the pull
channel. -/
theorem c5_discriminator_amended_witness :
    pushHandle (Frame.parsed kindCompletedEnv)
      = ([Callback.tick kindCompletedEnv, Callback.complete kindCompletedEnv], true)
  ∧ pushHandle (Frame.parsed errEnvPull) = ([Callback.error (errMsg errEnvPull)], true)
  ∧ pullHandle kindCompletedEnv = ([Callback.tick kindCompletedEnv], some 800) :=
  c5_discriminator_amended kindCompletedEnv errEnvPull kindCompletedEnv
    (by decide) (by decide) (by decide) (by decide) (by decide) (by decide)

/-- C6: the pull loop starts with exactly one query immediately in flight
and no pending timeout; a resolved non-terminal response invokes the tick
and schedules the next poll after 800; a failed query invokes no callback
and schedules the retry after 2000, from which the firing timer issues
the next query (retrying until stopped or terminal); and over every event
trace the loop occupies at most one slot (query in flight or pending
timeout), hence never two concurrent queries. -/
theorem c6_sequential_poll_loop (s : PullState) (e : Envelope) (evs : List PullEv)
    (hs : s.inFlight = 1) (hnt : pullNonTerminal e) (hinv : slots s ≤ 1) :
    pullStart = { inFlight := 1, timer := none }
  ∧ pullStep s (PullEv.resolve (QueryResult.ok e))
      = ({ inFlight := 0, timer := some 800 }, [Callback.tick e])
  ∧ pullStep s (PullEv.resolve QueryResult.failed)
      = ({ inFlight := 0, timer := some 2000 }, [])
  ∧ pullStep { inFlight := 0, timer := some 2000 } PullEv.timerFire
      = ({ inFlight := 1, timer := none }, [])
  ∧ slots (pullRunS s evs).1 ≤ 1 := by
  refine ⟨rfl, ?_, pullStep_failed s hs, rfl, pullRunS_slots evs s hinv⟩
  have h := pullStep_ok s e hs
  rwa [pullHandle_nonterminal e hnt] at h

/-- C6 witness at the freshly started state with a progress envelope and
a short concrete trace. -/
theorem c6_sequential_poll_loop_witness :
    pullStart = { inFlight := 1, timer := none }
  ∧ pullStep pullStart (PullEv.resolve (QueryResult.ok progressEnv))
      = ({ inFlight := 0, timer := some 800 }, [Callback.tick progressEnv])
  ∧ pullStep pullStart (PullEv.resolve QueryResult.failed)
      = ({ inFlight := 0, timer := some 2000 }, [])
  ∧ pullStep { inFlight := 0, timer := some 2000 } PullEv.timerFire
      = ({ inFlight := 1, timer := none }, [])
  ∧ slots (pullRunS pullStart
      [PullEv.resolve QueryResult.failed, PullEv.timerFire]).1 ≤ 1 :=
  c6_sequential_poll_loop pullStart progressEnv
    [PullEv.resolve QueryResult.failed, PullEv.timerFire]
    (by decide) (by decide) (by decide)

/-- C7: a malformed frame or response is dropped silently. On the push
channel `JSON.parse` throwing is caught and ignored: no callback, no
stop, and a valid envelope on each side of the malformed frame is still
delivered. On the pull channel a failed (unparseable) response invokes no
callback and only delays the loop, after which the next valid envelope is
still delivered. -/
theorem c7_malformed_dropped_silently (a b c d : Envelope) (fs : List Frame)
    (ha : pushNonTerminal a) (hc : pullNonTerminal c) :
    pushHandle Frame.malformed = ([], false)
  ∧ runPush (Frame.malformed :: fs) = runPush fs
  ∧ runPush [Frame.parsed a, Frame.malformed, Frame.parsed b]
      = Callback.tick a :: (pushHandle (Frame.parsed b)).1
  ∧ pullRun pullStart
      [PullEv.resolve (QueryResult.ok c), PullEv.timerFire,
        PullEv.resolve QueryResult.failed, PullEv.timerFire,
        PullEv.resolve (QueryResult.ok d)]
      = Callback.tick c :: (pullHandle d).1 := by
  refine ⟨rfl, by simp [runPush, pushHandle], ?_, ?_⟩
  · rw [runPush_cons_nonterminal a _ ha]
    simp [runPush, pushHandle]
  · have h1 : pullStep { inFlight := 1, timer := none } (PullEv.resolve (QueryResult.ok c))
        = ({ inFlight := 0, timer := some 800 }, [Callback.tick c]) := by
      rw [pullStep_ok _ c rfl, pullHandle_nonterminal c hc]
    have h2 : pullStep ({ inFlight := 0, timer := some 800 } : PullState) PullEv.timerFire
        = ({ inFlight := 1, timer := none }, []) := rfl
    have h3 : pullStep ({ inFlight := 1, timer := none } : PullState)
        (PullEv.resolve QueryResult.failed) = ({ inFlight := 0, timer := some 2000 }, []) := rfl
    have h4 : pullStep ({ inFlight := 0, timer := some 2000 } : PullState) PullEv.timerFire
        = ({ inFlight := 1, timer := none }, []) := rfl
    have h5 : pullStep ({ inFlight := 1, timer := none } : PullState)
        (PullEv.resolve (QueryResult.ok d))
        = ({ inFlight := 0, timer := (pullHandle d).2 }, (pullHandle d).1) :=
      pullStep_ok _ d rfl
    simp [pullRun, pullRunS, pullStart, h1, h2, h3, h4, h5]

/-- C7 witness: concrete valid-malformed-valid sequences on both
channels. -/
theorem c7_malformed_dropped_silently_witness :
    pushHandle Frame.malformed = ([], false)
  ∧ runPush (Frame.malformed :: [Frame.parsed progressEnv]) = runPush [Frame.parsed progressEnv]
  ∧ runPush [Frame.parsed progressEnv, Frame.malformed, Frame.parsed completedEnv]
      = Callback.tick progressEnv :: (pushHandle (Frame.parsed completedEnv)).1
  ∧ pullRun pullStart
      [PullEv.resolve (QueryResult.ok progressEnv), PullEv.timerFire,
        PullEv.resolve QueryResult.failed, PullEv.timerFire,
        PullEv.resolve (QueryResult.ok completedEnv)]
      = Callback.tick progressEnv :: (pullHandle completedEnv).1 :=
  c7_malformed_dropped_silently progressEnv completedEnv progressEnv completedEnv
    [Frame.parsed progressEnv] (by decide) (by decide)

/-- C8: a keepalive acknowledgement frame (`data.type === 'pong'`) is
recognised and discarded by the push manager: no consumer callback, no
self-stop, and the run over the remaining frames is unchanged. -/
theorem c8_keepalive_ack_discarded (e : Envelope) (fs : List Frame) (h : isPong e) :
    pushHandle (Frame.parsed e) = ([], false)
  ∧ runPush (Frame.parsed e :: fs) = runPush fs := by
  refine ⟨pushHandle_pong e h, ?_⟩
  simp [runPush, pushHandle_pong e h]

/-- C8 witness: a concrete pong frame followed by a progress frame. -/
theorem c8_keepalive_ack_discarded_witness :
    pushHandle (Frame.parsed pongEnv) = ([], false)
  ∧ runPush (Frame.parsed pongEnv :: [Frame.parsed progressEnv])
      = runPush [Frame.parsed progressEnv] :=
  c8_keepalive_ack_discarded pongEnv [Frame.parsed progressEnv] (by decide)

/-- C9: `stop()` on each channel manager is idempotent and safe from any
state: a second call finds both refs cleared and performs no effect,
calling it before start is a no-op, it cancels the keepalive interval
exactly when one is present and issues a close exactly when a connection
object is present; the pull `stop()` likewise clears the pending timeout
and invokes no callback, and repeating it changes nothing. -/
theorem c9_stop_idempotent_safe (r : PushRefs) (t : Option Nat) (s : PullState) :
    stopPush (stopPush r).1 = ((stopPush r).1, false, false)
  ∧ stopPush { ping := false, ws := false } = ({ ping := false, ws := false }, false, false)
  ∧ (stopPush r).2.1 = r.ping
  ∧ (stopPush r).2.2 = r.ws
  ∧ stopPull (stopPull t).1 = (none, false)
  ∧ stopPull none = (none, false)
  ∧ pullStep s PullEv.stopCall = ({ inFlight := s.inFlight, timer := none }, [])
  ∧ pullStep { inFlight := s.inFlight, timer := none } PullEv.stopCall
      = ({ inFlight := s.inFlight, timer := none }, []) :=
  ⟨rfl, rfl, rfl, rfl, rfl, rfl, rfl, rfl⟩

/-- C10: the rendered completion percentage is `(progress / total) * 100`
exactly when `total > 0` and is zero when `total` is zero, negative or
missing, so the computation never divides by a non-positive total. -/
theorem c10_percent_guarded (p t : ℚ) :
    (0 < t → percentOf p (some t) = p / t * 100)
  ∧ percentOf p (some 0) = 0
  ∧ percentOf p none = 0
  ∧ (¬ 0 < t → percentOf p (some t) = 0) := by
  refine ⟨fun h => ?_, by simp [percentOf], rfl, fun h => ?_⟩
  · simp [percentOf, h]
  · simp [percentOf, h]

/-- C10 witness: one item of two done renders fifty percent, and a zero
or missing total renders zero. -/
theorem c10_percent_guarded_witness :
    percentOf 1 (some 2) = 1 / 2 * 100
  ∧ percentOf 5 (some 0) = 0
  ∧ percentOf 5 none = 0 :=
  ⟨(c10_percent_guarded 1 2).1 (by norm_num),
    (c10_percent_guarded 5 0).2.1,
    (c10_percent_guarded 5 0).2.2.1⟩

end GeminiSolver
